import Mathlib

/-!
Shallow embedding of arch/z80/src/common/z80_createstack.c (function
up_create_stack) together with the release operation it relies on.

Modelling conventions:
  - Addresses and sizes are natural numbers; every place the C source
    performs uint32_t arithmetic is rendered with an explicit % 2^32
    (the cast of the stack pointer, the top-of-stack computation and
    the adjusted-size subtraction).
  - The two heap domains (kmm_malloc and kumm_malloc) are passed in as
    oracles of type Nat -> Option Nat: given a size they return the
    address of a fresh region or none on exhaustion.
  - Memory is a byte map Nat -> Nat; memset is modelled pointwise.
  - Build-time conditionals (CONFIG_MM_KERNEL_HEAP, CONFIG_STACK_COLORATION)
    become fields of an explicit configuration record.
  - Calls into the allocation domains are recorded in an event trace so
    that claims about the number and the order of allocate/free calls can
    be stated.
-/

/-- Number of values of a 32-bit unsigned integer: arithmetic on
uint32_t in the source is arithmetic modulo this constant. -/
def U32 : Nat := 4294967296

/-- Build configuration: CONFIG_MM_KERNEL_HEAP selects whether a
privileged kernel heap exists, CONFIG_STACK_COLORATION enables the
diagnostic 0xaa fill. -/
structure Config where
  mm_kernel_heap : Bool
  stack_coloration : Bool
deriving DecidableEq

/-- Thread type, from TCB_FLAG_TTYPE_TASK / TCB_FLAG_TTYPE_PTHREAD /
TCB_FLAG_TTYPE_KERNEL in include/nuttx/sched.h. -/
inductive Ttype where
  | task
  | pthread
  | kernel
deriving DecidableEq

/-- Allocation domain: the privileged kernel heap (kmm_malloc) or the
unprivileged user heap (kumm_malloc). -/
inductive Domain where
  | kernel
  | user
deriving DecidableEq

/-- The stack-related fields of struct tcb_s that up_create_stack reads
and writes: stack_alloc_ptr (none when unallocated), adj_stack_size and
adj_stack_ptr. -/
structure Tcb where
  stack_alloc_ptr : Option Nat
  adj_stack_size : Nat
  adj_stack_ptr : Nat
deriving DecidableEq

/-- One call into an allocation domain: an allocate with its domain,
requested size and result, or a free of a region address. -/
inductive Event where
  | alloc (d : Domain) (size : Nat) (result : Option Nat)
  | free (addr : Nat)
deriving DecidableEq

/-- memset(buf, c, len) on a byte map: bytes at addresses in
[buf, buf + len) become c, the rest are unchanged. -/
def memset (m : Nat → Nat) (buf c len : Nat) : Nat → Nat :=
  fun a => if buf ≤ a ∧ a < buf + len then c else m a

/-- OK return value of up_create_stack. -/
def OK : Int := 0

/-- ERROR return value of up_create_stack. -/
def ERROR : Int := -1

/-- Modelled from the spec: up_release_stack is declared but its body is
not among the sources (only this caller is).  Per the spec it frees
raw_base back to the allocation domain derived from the privilege class
and resets the descriptor to the unallocated state, raw_base = none with
the adjusted fields cleared. -/
def up_release_stack (tcb : Tcb) (ttype : Ttype) : Tcb × List Event :=
  match tcb.stack_alloc_ptr with
  | none => (tcb, [])
  | some p => (⟨none, 0, 0⟩, [Event.free p])

/-- First block of up_create_stack: if there is already a stack
allocated of a different size (stack_alloc_ptr set and adj_stack_size
different from stack_size), release the old stack. -/
def release_phase (tcb : Tcb) (stack_size : Nat) (ttype : Ttype) :
    Tcb × List Event :=
  if tcb.stack_alloc_ptr.isSome ∧ tcb.adj_stack_size ≠ stack_size then
    up_release_stack tcb ttype
  else
    (tcb, [])

/-- Second block of up_create_stack: if stack_alloc_ptr is unset,
allocate from kmm_malloc when CONFIG_MM_KERNEL_HEAP is defined and the
thread is a kernel thread, else from kumm_malloc, storing the result
(possibly a null pointer) into stack_alloc_ptr. -/
def alloc_phase (cfg : Config) (kmm_malloc kumm_malloc : Nat → Option Nat)
    (tcb : Tcb) (stack_size : Nat) (ttype : Ttype) : Tcb × List Event :=
  if tcb.stack_alloc_ptr.isNone then
    if cfg.mm_kernel_heap ∧ ttype = Ttype.kernel then
      ({ tcb with stack_alloc_ptr := kmm_malloc stack_size },
       [Event.alloc Domain.kernel stack_size (kmm_malloc stack_size)])
    else
      ({ tcb with stack_alloc_ptr := kumm_malloc stack_size },
       [Event.alloc Domain.user stack_size (kumm_malloc stack_size)])
  else
    (tcb, [])

/-- top_of_stack of up_create_stack in uint32_t arithmetic:
(uint32_t)stack_alloc_ptr + stack_size - 4, then aligned down to a
4-byte boundary by the mask with ~3. -/
def top_of_stack (ptr stack_size : Nat) : Nat :=
  ((ptr % U32 + stack_size % U32 + (U32 - 4)) % U32) / 4 * 4

/-- size_of_stack of up_create_stack in uint32_t arithmetic:
top_of_stack - (uint32_t)stack_alloc_ptr + 4. -/
def size_of_stack (ptr stack_size : Nat) : Nat :=
  (top_of_stack ptr stack_size + (U32 - ptr % U32) + 4) % U32

/-- Result of a call to up_create_stack: the updated TCB, the memory
after any coloration fill, the trace of allocation-domain calls, and
the returned value (OK or ERROR). -/
structure CreateResult where
  tcb : Tcb
  mem : Nat → Nat
  events : List Event
  ret : Int

/-- up_create_stack from arch/z80/src/common/z80_createstack.c:
release a previously allocated stack of a different size, allocate a
new stack when none is held, and on success optionally color the stack
and store the adjusted stack pointer and size into the TCB. -/
def up_create_stack (cfg : Config) (kmm_malloc kumm_malloc : Nat → Option Nat)
    (tcb : Tcb) (mem : Nat → Nat) (stack_size : Nat) (ttype : Ttype) :
    CreateResult :=
  let s1 := release_phase tcb stack_size ttype
  let s2 := alloc_phase cfg kmm_malloc kumm_malloc s1.1 stack_size ttype
  match s2.1.stack_alloc_ptr with
  | some p =>
      let mem1 := if cfg.stack_coloration then memset mem p 0xaa stack_size
                  else mem
      { tcb := { s2.1 with
                   adj_stack_ptr := top_of_stack p stack_size,
                   adj_stack_size := size_of_stack p stack_size },
        mem := mem1,
        events := s1.2 ++ s2.2,
        ret := OK }
  | none =>
      { tcb := s2.1, mem := mem, events := s1.2 ++ s2.2, ret := ERROR }

/-- The allocation domain the source selects: the kernel heap exactly
when CONFIG_MM_KERNEL_HEAP is defined and the thread is a kernel
thread, the user heap otherwise. -/
def selected_domain (cfg : Config) (ttype : Ttype) : Domain :=
  if cfg.mm_kernel_heap ∧ ttype = Ttype.kernel then Domain.kernel
  else Domain.user

/-- The result of calling the selected allocation domain. -/
def selected_malloc (cfg : Config) (kmm_malloc kumm_malloc : Nat → Option Nat)
    (stack_size : Nat) (ttype : Ttype) : Option Nat :=
  if cfg.mm_kernel_heap ∧ ttype = Ttype.kernel then kmm_malloc stack_size
  else kumm_malloc stack_size

/-- Recognizer for free events in a trace. -/
def is_free : Event → Bool
  | Event.free _ => true
  | Event.alloc _ _ _ => false

/-! Path lemmas: the behaviour of up_create_stack on each of its
three control-flow paths (reuse in place, fresh allocation, release
then reallocate). -/

lemma alloc_phase_of_none (cfg : Config) (km um : Nat → Option Nat)
    (tcb : Tcb) (s : Nat) (t : Ttype) (h : tcb.stack_alloc_ptr = none) :
    alloc_phase cfg km um tcb s t =
      ({ tcb with stack_alloc_ptr := selected_malloc cfg km um s t },
       [Event.alloc (selected_domain cfg t) s (selected_malloc cfg km um s t)]) := by
  by_cases hc : cfg.mm_kernel_heap ∧ t = Ttype.kernel <;>
    simp [alloc_phase, selected_malloc, selected_domain, h, hc]

lemma create_success_fields (cfg : Config) (km um : Nat → Option Nat)
    (tcb : Tcb) (mem : Nat → Nat) (s : Nat) (t : Ttype) (p : Nat)
    (hp : (up_create_stack cfg km um tcb mem s t).tcb.stack_alloc_ptr = some p) :
    (up_create_stack cfg km um tcb mem s t).tcb.adj_stack_ptr = top_of_stack p s ∧
    (up_create_stack cfg km um tcb mem s t).tcb.adj_stack_size = size_of_stack p s ∧
    (up_create_stack cfg km um tcb mem s t).ret = OK ∧
    (up_create_stack cfg km um tcb mem s t).mem =
      (if cfg.stack_coloration then memset mem p 0xaa s else mem) := by
  rcases h2 : (alloc_phase cfg km um (release_phase tcb s t).1 s t).1.stack_alloc_ptr with _ | q
  · simp [up_create_stack, h2] at hp
  · simp [up_create_stack, h2] at hp ⊢
    subst hp
    simp

lemma create_reuse (cfg : Config) (km um : Nat → Option Nat)
    (tcb : Tcb) (mem : Nat → Nat) (s : Nat) (t : Ttype) (p : Nat)
    (hp : tcb.stack_alloc_ptr = some p) (hs : tcb.adj_stack_size = s) :
    up_create_stack cfg km um tcb mem s t =
      { tcb := ⟨some p, size_of_stack p s, top_of_stack p s⟩,
        mem := if cfg.stack_coloration then memset mem p 0xaa s else mem,
        events := [],
        ret := OK } := by
  obtain ⟨ptr, asz, aptr⟩ := tcb
  simp only [Tcb.stack_alloc_ptr] at hp
  simp only [Tcb.adj_stack_size] at hs
  subst hp hs
  simp [up_create_stack, release_phase, alloc_phase]

lemma create_fresh (cfg : Config) (km um : Nat → Option Nat)
    (tcb : Tcb) (mem : Nat → Nat) (s : Nat) (t : Ttype)
    (hp : tcb.stack_alloc_ptr = none) :
    up_create_stack cfg km um tcb mem s t =
      match selected_malloc cfg km um s t with
      | some q =>
          { tcb := ⟨some q, size_of_stack q s, top_of_stack q s⟩,
            mem := if cfg.stack_coloration then memset mem q 0xaa s else mem,
            events := [Event.alloc (selected_domain cfg t) s (some q)],
            ret := OK }
      | none =>
          { tcb := ⟨none, tcb.adj_stack_size, tcb.adj_stack_ptr⟩,
            mem := mem,
            events := [Event.alloc (selected_domain cfg t) s none],
            ret := ERROR } := by
  obtain ⟨ptr, asz, aptr⟩ := tcb
  simp only [Tcb.stack_alloc_ptr] at hp
  subst hp
  have hrel : release_phase ⟨none, asz, aptr⟩ s t = (⟨none, asz, aptr⟩, []) := by
    simp [release_phase]
  rcases hm : selected_malloc cfg km um s t with _ | q <;>
    simp [up_create_stack, hrel, alloc_phase_of_none, hm]

lemma create_mismatch (cfg : Config) (km um : Nat → Option Nat)
    (tcb : Tcb) (mem : Nat → Nat) (s : Nat) (t : Ttype) (p : Nat)
    (hp : tcb.stack_alloc_ptr = some p) (hs : tcb.adj_stack_size ≠ s) :
    up_create_stack cfg km um tcb mem s t =
      match selected_malloc cfg km um s t with
      | some q =>
          { tcb := ⟨some q, size_of_stack q s, top_of_stack q s⟩,
            mem := if cfg.stack_coloration then memset mem q 0xaa s else mem,
            events := [Event.free p, Event.alloc (selected_domain cfg t) s (some q)],
            ret := OK }
      | none =>
          { tcb := ⟨none, 0, 0⟩,
            mem := mem,
            events := [Event.free p, Event.alloc (selected_domain cfg t) s none],
            ret := ERROR } := by
  obtain ⟨ptr, asz, aptr⟩ := tcb
  simp only [Tcb.stack_alloc_ptr] at hp
  simp only [Tcb.adj_stack_size] at hs
  subst hp
  have hrel : release_phase ⟨some p, asz, aptr⟩ s t = (⟨none, 0, 0⟩, [Event.free p]) := by
    simp [release_phase, up_release_stack, hs]
  rcases hm : selected_malloc cfg km um s t with _ | q <;>
    simp [up_create_stack, hrel, alloc_phase_of_none, hm]

/-! Arithmetic lemmas about the uint32 stack adjustment. -/

lemma top_of_stack_eq (p s : Nat) (h1 : 4 ≤ p + s) (h2 : p + s < U32) :
    top_of_stack p s = (p + s - 4) / 4 * 4 := by
  unfold top_of_stack U32 at *
  omega

lemma size_of_stack_eq (p s : Nat) (h1 : 4 ≤ s) (h2 : p + s < U32) :
    size_of_stack p s = (p + s - 4) / 4 * 4 + 4 - p := by
  unfold size_of_stack
  rw [top_of_stack_eq p s (by omega) h2]
  unfold U32 at *
  omega

/-! Claim theorems. -/

/-- Claim C1: for every successful create on the descending z80 stack
with word size 4 (requested size at least one word, no uint32
overflow), the adjusted stack pointer written to the descriptor equals
raw base plus requested size minus 4, rounded down to a multiple of 4,
and the adjusted size written equals that rounded top minus the raw
base plus 4 (one word). -/
theorem create_descending_adjustment (cfg : Config) (km um : Nat → Option Nat)
    (tcb : Tcb) (mem : Nat → Nat) (s : Nat) (t : Ttype) (p : Nat)
    (hp : (up_create_stack cfg km um tcb mem s t).tcb.stack_alloc_ptr = some p)
    (h4 : 4 ≤ s) (hlt : p + s < U32) :
    (up_create_stack cfg km um tcb mem s t).tcb.adj_stack_ptr
      = (p + s - 4) / 4 * 4 ∧
    (up_create_stack cfg km um tcb mem s t).tcb.adj_stack_size
      = (p + s - 4) / 4 * 4 + 4 - p := by
  obtain ⟨h1, h2, _, _⟩ := create_success_fields cfg km um tcb mem s t p hp
  rw [h1, h2, top_of_stack_eq p s (by omega) hlt, size_of_stack_eq p s h4 hlt]
  exact ⟨rfl, rfl⟩

/-- Witness for C1: a concrete fresh create of 512 bytes at raw base
1000 stores adjusted pointer 1508 and adjusted size 512. -/
theorem create_descending_adjustment_witness :
    (up_create_stack ⟨false, false⟩ (fun _ => none) (fun _ => some 1000)
      ⟨none, 0, 0⟩ (fun _ => 0) 512 Ttype.task).tcb.adj_stack_ptr
      = (1000 + 512 - 4) / 4 * 4 ∧
    (up_create_stack ⟨false, false⟩ (fun _ => none) (fun _ => some 1000)
      ⟨none, 0, 0⟩ (fun _ => 0) 512 Ttype.task).tcb.adj_stack_size
      = (1000 + 512 - 4) / 4 * 4 + 4 - 1000 :=
  create_descending_adjustment ⟨false, false⟩ (fun _ => none) (fun _ => some 1000)
    ⟨none, 0, 0⟩ (fun _ => 0) 512 Ttype.task 1000 (by decide) (by decide) (by decide)

/-- Claim C4 counterexample: create at raw base 8 with requested size
16 succeeds and stores adjusted pointer 20 and adjusted size 16, but
the region from the adjusted pointer of the adjusted size ends at 36,
past the end 24 of the allocated region, so the half-open region from
adjusted base of length adjusted size is not contained in the
allocation. -/
theorem adjusted_region_containment_cex :
    (up_create_stack ⟨false, false⟩ (fun _ => none) (fun _ => some 8)
      ⟨none, 0, 0⟩ (fun _ => 0) 16 Ttype.task).ret = OK ∧
    (up_create_stack ⟨false, false⟩ (fun _ => none) (fun _ => some 8)
      ⟨none, 0, 0⟩ (fun _ => 0) 16 Ttype.task).tcb.stack_alloc_ptr = some 8 ∧
    (up_create_stack ⟨false, false⟩ (fun _ => none) (fun _ => some 8)
      ⟨none, 0, 0⟩ (fun _ => 0) 16 Ttype.task).tcb.adj_stack_ptr = 20 ∧
    (up_create_stack ⟨false, false⟩ (fun _ => none) (fun _ => some 8)
      ⟨none, 0, 0⟩ (fun _ => 0) 16 Ttype.task).tcb.adj_stack_size = 16 ∧
    ¬ (20 + 16 ≤ 8 + 16) := by
  refine ⟨by decide, by decide, by decide, by decide, by decide⟩

/-- Claim C4 as amended: for every successful create with requested
size at least the minimum of 8 bytes (one alignment unit plus one
reserved word) and no uint32 overflow, the adjusted stack pointer lies
inside the allocated region and the usable half-open region from the
raw base of length adjusted size lies entirely within the allocated
region of length requested size. -/
theorem adjusted_region_within_allocation (cfg : Config) (km um : Nat → Option Nat)
    (tcb : Tcb) (mem : Nat → Nat) (s : Nat) (t : Ttype) (p : Nat)
    (hp : (up_create_stack cfg km um tcb mem s t).tcb.stack_alloc_ptr = some p)
    (h8 : 8 ≤ s) (hlt : p + s < U32) :
    p ≤ (up_create_stack cfg km um tcb mem s t).tcb.adj_stack_ptr ∧
    (up_create_stack cfg km um tcb mem s t).tcb.adj_stack_ptr + 4 ≤ p + s ∧
    p + (up_create_stack cfg km um tcb mem s t).tcb.adj_stack_size ≤ p + s := by
  obtain ⟨h1, h2, _, _⟩ := create_success_fields cfg km um tcb mem s t p hp
  rw [h1, h2, top_of_stack_eq p s (by omega) hlt, size_of_stack_eq p s (by omega) hlt]
  omega

/-- Witness for the amended C4 at raw base 8, requested size 16. -/
theorem adjusted_region_within_allocation_witness :
    8 ≤ (up_create_stack ⟨false, false⟩ (fun _ => none) (fun _ => some 8)
      ⟨none, 0, 0⟩ (fun _ => 0) 16 Ttype.task).tcb.adj_stack_ptr ∧
    (up_create_stack ⟨false, false⟩ (fun _ => none) (fun _ => some 8)
      ⟨none, 0, 0⟩ (fun _ => 0) 16 Ttype.task).tcb.adj_stack_ptr + 4 ≤ 8 + 16 ∧
    8 + (up_create_stack ⟨false, false⟩ (fun _ => none) (fun _ => some 8)
      ⟨none, 0, 0⟩ (fun _ => 0) 16 Ttype.task).tcb.adj_stack_size ≤ 8 + 16 :=
  adjusted_region_within_allocation ⟨false, false⟩ (fun _ => none) (fun _ => some 8)
    ⟨none, 0, 0⟩ (fun _ => 0) 16 Ttype.task 8 (by decide) (by decide) (by decide)

/-- Claim C9 counterexample: create at the unaligned raw base 5 with
requested size 1 succeeds, and the uint32 subtraction wraps, storing
the adjusted size 4294967295, which exceeds the requested size 1. -/
theorem adjusted_size_exceeds_requested_cex :
    (up_create_stack ⟨false, false⟩ (fun _ => none) (fun _ => some 5)
      ⟨none, 0, 0⟩ (fun _ => 0) 1 Ttype.task).ret = OK ∧
    (up_create_stack ⟨false, false⟩ (fun _ => none) (fun _ => some 5)
      ⟨none, 0, 0⟩ (fun _ => 0) 1 Ttype.task).tcb.adj_stack_size = 4294967295 ∧
    ¬ ((up_create_stack ⟨false, false⟩ (fun _ => none) (fun _ => some 5)
      ⟨none, 0, 0⟩ (fun _ => 0) 1 Ttype.task).tcb.adj_stack_size ≤ 1) := by
  refine ⟨by decide, by decide, by decide⟩

/-- Claim C9 as amended: for every successful create with requested
size at least one word (4 bytes) and no uint32 overflow, the computed
adjusted size never exceeds the requested size, and when the requested
size is at least one alignment unit plus one reserved word (8 bytes)
the adjusted size is strictly positive. -/
theorem adjusted_size_bounds (cfg : Config) (km um : Nat → Option Nat)
    (tcb : Tcb) (mem : Nat → Nat) (s : Nat) (t : Ttype) (p : Nat)
    (hp : (up_create_stack cfg km um tcb mem s t).tcb.stack_alloc_ptr = some p)
    (h4 : 4 ≤ s) (hlt : p + s < U32) :
    (up_create_stack cfg km um tcb mem s t).tcb.adj_stack_size ≤ s ∧
    (8 ≤ s → 0 < (up_create_stack cfg km um tcb mem s t).tcb.adj_stack_size) := by
  obtain ⟨_, h2, _, _⟩ := create_success_fields cfg km um tcb mem s t p hp
  rw [h2, size_of_stack_eq p s h4 hlt]
  omega

/-- Witness for the amended C9 at raw base 5, requested size 8. -/
theorem adjusted_size_bounds_witness :
    (up_create_stack ⟨false, false⟩ (fun _ => none) (fun _ => some 5)
      ⟨none, 0, 0⟩ (fun _ => 0) 8 Ttype.task).tcb.adj_stack_size ≤ 8 ∧
    (8 ≤ 8 → 0 < (up_create_stack ⟨false, false⟩ (fun _ => none) (fun _ => some 5)
      ⟨none, 0, 0⟩ (fun _ => 0) 8 Ttype.task).tcb.adj_stack_size) :=
  adjusted_size_bounds ⟨false, false⟩ (fun _ => none) (fun _ => some 5)
    ⟨none, 0, 0⟩ (fun _ => 0) 8 Ttype.task 5 (by decide) (by decide) (by decide)

/-- Claim C10: for every requested size of 1, 2 or 3 bytes, create
still succeeds when allocation succeeds, the stored adjusted stack
pointer lies strictly below the allocated region because the uint32
arithmetic raw base + size - 4 falls below the raw base, and for a
word-aligned raw base the stored adjusted size is 0; no validation or
error occurs. -/
theorem small_size_wraparound (cfg : Config) (km um : Nat → Option Nat)
    (tcb : Tcb) (mem : Nat → Nat) (s : Nat) (t : Ttype) (p : Nat)
    (hp : (up_create_stack cfg km um tcb mem s t).tcb.stack_alloc_ptr = some p)
    (h1 : 1 ≤ s) (h3 : s ≤ 3) (hp4 : 4 ≤ p) (hlt : p + s < U32) :
    (up_create_stack cfg km um tcb mem s t).ret = OK ∧
    (up_create_stack cfg km um tcb mem s t).tcb.adj_stack_ptr < p ∧
    (p % 4 = 0 → (up_create_stack cfg km um tcb mem s t).tcb.adj_stack_size = 0) := by
  obtain ⟨hptr, hsz, hret, _⟩ := create_success_fields cfg km um tcb mem s t p hp
  refine ⟨hret, ?_, ?_⟩
  · rw [hptr, top_of_stack_eq p s (by omega) hlt]
    omega
  · intro hal
    rw [hsz]
    unfold size_of_stack
    rw [top_of_stack_eq p s (by omega) hlt]
    unfold U32 at *
    omega

/-- Witness for C10: allocation at word-aligned base 8 with requested
size 2 succeeds, stores adjusted pointer 4 below the region, and
stores adjusted size 0. -/
theorem small_size_wraparound_witness :
    (up_create_stack ⟨false, false⟩ (fun _ => none) (fun _ => some 8)
      ⟨none, 0, 0⟩ (fun _ => 0) 2 Ttype.task).ret = OK ∧
    (up_create_stack ⟨false, false⟩ (fun _ => none) (fun _ => some 8)
      ⟨none, 0, 0⟩ (fun _ => 0) 2 Ttype.task).tcb.adj_stack_ptr < 8 ∧
    (8 % 4 = 0 → (up_create_stack ⟨false, false⟩ (fun _ => none) (fun _ => some 8)
      ⟨none, 0, 0⟩ (fun _ => 0) 2 Ttype.task).tcb.adj_stack_size = 0) :=
  small_size_wraparound ⟨false, false⟩ (fun _ => none) (fun _ => some 8)
    ⟨none, 0, 0⟩ (fun _ => 0) 2 Ttype.task 8 (by decide) (by decide) (by decide)
    (by decide) (by decide)

/-- Helper: the selected domain is the kernel domain exactly when the
kernel heap is configured and the thread is a kernel thread. -/
lemma selected_domain_kernel_iff (cfg : Config) (t : Ttype) :
    selected_domain cfg t = Domain.kernel ↔
      (cfg.mm_kernel_heap ∧ t = Ttype.kernel) := by
  by_cases hc : cfg.mm_kernel_heap ∧ t = Ttype.kernel <;>
    simp [selected_domain, hc]

/-- Claim C6: whenever the selected allocation domain returns no
memory and a new allocation is needed (the descriptor is unallocated,
or its recorded adjusted size differs from the request so the old
stack is released first), create returns ERROR, the sole failure
result, and afterwards the descriptor holds stack_alloc_ptr = none:
after a release-then-reallocate failure it is left fully unallocated,
not pointing at the freed region. -/
theorem alloc_failure_clean (cfg : Config) (km um : Nat → Option Nat)
    (tcb : Tcb) (mem : Nat → Nat) (s : Nat) (t : Ttype)
    (hsel : selected_malloc cfg km um s t = none)
    (hneed : tcb.stack_alloc_ptr = none ∨ tcb.adj_stack_size ≠ s) :
    (up_create_stack cfg km um tcb mem s t).ret = ERROR ∧
    (up_create_stack cfg km um tcb mem s t).tcb.stack_alloc_ptr = none := by
  rcases hcase : tcb.stack_alloc_ptr with _ | p
  · rw [create_fresh cfg km um tcb mem s t hcase, hsel]
    exact ⟨rfl, rfl⟩
  · have hs : tcb.adj_stack_size ≠ s := by
      rcases hneed with h | h
      · rw [hcase] at h
        simp at h
      · exact h
    rw [create_mismatch cfg km um tcb mem s t p hcase hs, hsel]
    exact ⟨rfl, rfl⟩

/-- Witness for C6: a descriptor holding a live 8-byte stack at 100 is
re-created with size 16 while both domains are exhausted; the call
returns ERROR and the descriptor ends fully unallocated. -/
theorem alloc_failure_clean_witness :
    (up_create_stack ⟨false, false⟩ (fun _ => none) (fun _ => none)
      ⟨some 100, 8, 96⟩ (fun _ => 0) 16 Ttype.task).ret = ERROR ∧
    (up_create_stack ⟨false, false⟩ (fun _ => none) (fun _ => none)
      ⟨some 100, 8, 96⟩ (fun _ => 0) 16 Ttype.task).tcb.stack_alloc_ptr = none :=
  alloc_failure_clean ⟨false, false⟩ (fun _ => none) (fun _ => none)
    ⟨some 100, 8, 96⟩ (fun _ => 0) 16 Ttype.task (by decide) (Or.inr (by decide))

/-- Claim C7: every allocation-domain call made by create goes to the
kernel domain exactly when the thread type is kernel thread and the
kernel heap is configured, and to the user domain in every other case;
the selection is a pure function of thread type and configuration. -/
theorem domain_selection_pure (cfg : Config) (km um : Nat → Option Nat)
    (tcb : Tcb) (mem : Nat → Nat) (s : Nat) (t : Ttype)
    (d : Domain) (sz : Nat) (r : Option Nat)
    (hmem : Event.alloc d sz r ∈ (up_create_stack cfg km um tcb mem s t).events) :
    (d = Domain.kernel ↔ (cfg.mm_kernel_heap ∧ t = Ttype.kernel)) := by
  have hd : d = selected_domain cfg t := by
    rcases hcase : tcb.stack_alloc_ptr with _ | p
    · rw [create_fresh cfg km um tcb mem s t hcase] at hmem
      rcases hm : selected_malloc cfg km um s t with _ | q <;> rw [hm] at hmem <;>
        simp at hmem <;> exact hmem.1
    · by_cases hs : tcb.adj_stack_size = s
      · rw [create_reuse cfg km um tcb mem s t p hcase hs] at hmem
        simp at hmem
      · rw [create_mismatch cfg km um tcb mem s t p hcase hs] at hmem
        rcases hm : selected_malloc cfg km um s t with _ | q <;> rw [hm] at hmem <;>
          simp at hmem <;> exact hmem.1
  rw [hd]
  exact selected_domain_kernel_iff cfg t

/-- Witness for C7: with the kernel heap configured but a normal task
requesting the stack, the single allocation event goes to the user
domain, and the theorem instantiates to the (vacuously matched) iff. -/
theorem domain_selection_pure_witness :
    (Domain.user = Domain.kernel ↔
      ((⟨true, false⟩ : Config).mm_kernel_heap ∧ Ttype.task = Ttype.kernel)) :=
  domain_selection_pure ⟨true, false⟩ (fun _ => some 40) (fun _ => some 12)
    ⟨none, 0, 0⟩ (fun _ => 0) 16 Ttype.task Domain.user 16 (some 12) (by decide)

/-- Claim C3 counterexample: create with requested size 10 at aligned
base 4 succeeds and records the adjusted size 8; a second create with
the identical requested size 10 then frees the region and performs a
new allocation-domain call, because the recorded adjusted size 8
erroneously appears different from 10. -/
theorem identical_size_realloc_cex :
    (up_create_stack ⟨false, false⟩ (fun _ => none) (fun _ => some 4)
      ⟨none, 0, 0⟩ (fun _ => 0) 10 Ttype.task).ret = OK ∧
    (up_create_stack ⟨false, false⟩ (fun _ => none) (fun _ => some 4)
      ⟨none, 0, 0⟩ (fun _ => 0) 10 Ttype.task).tcb.stack_alloc_ptr = some 4 ∧
    (up_create_stack ⟨false, false⟩ (fun _ => none) (fun _ => some 4)
      (up_create_stack ⟨false, false⟩ (fun _ => none) (fun _ => some 4)
        ⟨none, 0, 0⟩ (fun _ => 0) 10 Ttype.task).tcb
      (fun _ => 0) 10 Ttype.task).events
      = [Event.free 4, Event.alloc Domain.user 10 (some 4)] := by
  refine ⟨by decide, by decide, by decide⟩

/-- Claim C3 as amended: a second create with the identical requested
size performs no allocation-domain call and leaves the raw base
unchanged provided the adjusted size recorded by the first create
equals that requested size (as when base and size are word aligned);
it is the recorded adjusted size that is compared, not the size the
allocation was created with. -/
theorem reuse_when_adjusted_size_matches (cfg cfg2 : Config)
    (km um km2 um2 : Nat → Option Nat) (tcb : Tcb) (mem mem2 : Nat → Nat)
    (s : Nat) (t t2 : Ttype) (p : Nat)
    (h1 : (up_create_stack cfg km um tcb mem s t).tcb.stack_alloc_ptr = some p)
    (h2 : (up_create_stack cfg km um tcb mem s t).tcb.adj_stack_size = s) :
    (up_create_stack cfg2 km2 um2 (up_create_stack cfg km um tcb mem s t).tcb
      mem2 s t2).events = [] ∧
    (up_create_stack cfg2 km2 um2 (up_create_stack cfg km um tcb mem s t).tcb
      mem2 s t2).tcb.stack_alloc_ptr = some p ∧
    (up_create_stack cfg2 km2 um2 (up_create_stack cfg km um tcb mem s t).tcb
      mem2 s t2).ret = OK := by
  rw [create_reuse cfg2 km2 um2 _ mem2 s t2 p h1 h2]
  exact ⟨rfl, rfl, rfl⟩

/-- Witness for the amended C3: create of 16 bytes at base 4 records
adjusted size 16; re-creating with size 16 touches no allocation
domain (even one that would return a different region) and keeps raw
base 4. -/
theorem reuse_when_adjusted_size_matches_witness :
    (up_create_stack ⟨false, false⟩ (fun _ => none) (fun _ => some 999)
      (up_create_stack ⟨false, false⟩ (fun _ => none) (fun _ => some 4)
        ⟨none, 0, 0⟩ (fun _ => 0) 16 Ttype.task).tcb
      (fun _ => 0) 16 Ttype.task).events = [] ∧
    (up_create_stack ⟨false, false⟩ (fun _ => none) (fun _ => some 999)
      (up_create_stack ⟨false, false⟩ (fun _ => none) (fun _ => some 4)
        ⟨none, 0, 0⟩ (fun _ => 0) 16 Ttype.task).tcb
      (fun _ => 0) 16 Ttype.task).tcb.stack_alloc_ptr = some 4 ∧
    (up_create_stack ⟨false, false⟩ (fun _ => none) (fun _ => some 999)
      (up_create_stack ⟨false, false⟩ (fun _ => none) (fun _ => some 4)
        ⟨none, 0, 0⟩ (fun _ => 0) 16 Ttype.task).tcb
      (fun _ => 0) 16 Ttype.task).ret = OK :=
  reuse_when_adjusted_size_matches ⟨false, false⟩ ⟨false, false⟩
    (fun _ => none) (fun _ => some 4) (fun _ => none) (fun _ => some 999)
    ⟨none, 0, 0⟩ (fun _ => 0) (fun _ => 0) 16 Ttype.task Ttype.task 4
    (by decide) (by decide)

/-- Claim C5 counterexample: create with requested size 10 at aligned
base 4 records adjusted size 8; a second create with the different
requested size 8 performs no release and no allocation at all (the
recorded adjusted size 8 equals the new request), contradicting the
claim that changing the requested size always releases the old region
once and allocates a new one. -/
theorem size_change_no_release_cex :
    (up_create_stack ⟨false, false⟩ (fun _ => none) (fun _ => some 4)
      ⟨none, 0, 0⟩ (fun _ => 0) 10 Ttype.task).ret = OK ∧
    (10 : Nat) ≠ 8 ∧
    (up_create_stack ⟨false, false⟩ (fun _ => none) (fun _ => some 4)
      (up_create_stack ⟨false, false⟩ (fun _ => none) (fun _ => some 4)
        ⟨none, 0, 0⟩ (fun _ => 0) 10 Ttype.task).tcb
      (fun _ => 0) 8 Ttype.task).events = [] := by
  refine ⟨by decide, by decide, by decide⟩

/-- Claim C5 as amended: the prior allocation is released, before any
new allocation, exactly when the descriptor holds a live allocation
and the recorded adjusted size differs from the new requested size,
and in that case the trace is exactly one free of the old region
followed by one allocation of the new requested size; a size change
between two creates triggers this exactly when the adjusted size
recorded by the first differs from the second requested size. -/
theorem release_iff_adjusted_size_mismatch (cfg : Config)
    (km um : Nat → Option Nat) (tcb : Tcb) (mem : Nat → Nat) (s : Nat)
    (t : Ttype) :
    ((up_create_stack cfg km um tcb mem s t).events.countP is_free
      = if tcb.stack_alloc_ptr.isSome ∧ tcb.adj_stack_size ≠ s then 1 else 0) ∧
    (∀ p, tcb.stack_alloc_ptr = some p → tcb.adj_stack_size ≠ s →
      (up_create_stack cfg km um tcb mem s t).events
        = [Event.free p,
           Event.alloc (selected_domain cfg t) s (selected_malloc cfg km um s t)]) := by
  constructor
  · rcases hcase : tcb.stack_alloc_ptr with _ | p
    · rw [create_fresh cfg km um tcb mem s t hcase]
      rcases hm : selected_malloc cfg km um s t with _ | q <;>
        simp [hcase, is_free]
    · by_cases hs : tcb.adj_stack_size = s
      · rw [create_reuse cfg km um tcb mem s t p hcase hs]
        simp [hcase, hs]
      · rw [create_mismatch cfg km um tcb mem s t p hcase hs]
        rcases hm : selected_malloc cfg km um s t with _ | q <;>
          simp [hcase, hs, is_free]
  · intro p hp hs
    rw [create_mismatch cfg km um tcb mem s t p hp hs]
    rcases hm : selected_malloc cfg km um s t with _ | q <;> rfl

/-- Witness for the amended C5: a descriptor holding the region at 4
with recorded adjusted size 8 is re-created with size 16: the trace is
exactly one free of 4 followed by one allocation of 16 from the
selected (user) domain. -/
theorem release_iff_adjusted_size_mismatch_witness :
    (up_create_stack ⟨false, false⟩ (fun _ => none) (fun _ => some 20)
      ⟨some 4, 8, 8⟩ (fun _ => 0) 16 Ttype.task).events
      = [Event.free 4,
         Event.alloc (selected_domain ⟨false, false⟩ Ttype.task) 16
           (selected_malloc ⟨false, false⟩ (fun _ => none) (fun _ => some 20) 16
             Ttype.task)] :=
  (release_iff_adjusted_size_mismatch ⟨false, false⟩ (fun _ => none)
    (fun _ => some 20) ⟨some 4, 8, 8⟩ (fun _ => 0) 16 Ttype.task).2 4 rfl
    (by decide)

/-- Claim C2 counterexample: with coloration enabled, a create that
reuses the existing allocation in place (no allocation-domain calls,
raw base unchanged, success) overwrites the bytes of the region with
the 0xaa pattern: the byte at address 4 was 0 before the call and is
0xaa afterwards, so a reused region is re-filled, not left as it was. -/
theorem coloration_refills_reused_stack_cex :
    (up_create_stack ⟨false, true⟩ (fun _ => none) (fun _ => some 4)
      ⟨some 4, 16, 16⟩ (fun _ => 0) 16 Ttype.task).events = [] ∧
    (up_create_stack ⟨false, true⟩ (fun _ => none) (fun _ => some 4)
      ⟨some 4, 16, 16⟩ (fun _ => 0) 16 Ttype.task).tcb.stack_alloc_ptr = some 4 ∧
    (up_create_stack ⟨false, true⟩ (fun _ => none) (fun _ => some 4)
      ⟨some 4, 16, 16⟩ (fun _ => 0) 16 Ttype.task).ret = OK ∧
    (up_create_stack ⟨false, true⟩ (fun _ => none) (fun _ => some 4)
      ⟨some 4, 16, 16⟩ (fun _ => 0) 16 Ttype.task).mem 4 = 0xaa ∧
    (0xaa : Nat) ≠ 0 := by
  refine ⟨by decide, by decide, by decide, by decide, by decide⟩

/-- Claim C2 as amended: with stack coloration enabled, every
successful create fills the bytes at addresses from the raw base up to
the raw base plus the requested size with the fixed 0xaa pattern — on
the fresh-allocation path and equally on the reuse path, whose
previous contents are overwritten rather than preserved. -/
theorem coloration_fills_every_successful_create (cfg : Config)
    (km um : Nat → Option Nat) (tcb : Tcb) (mem : Nat → Nat) (s : Nat)
    (t : Ttype) (p a : Nat)
    (hcol : cfg.stack_coloration = true)
    (hp : (up_create_stack cfg km um tcb mem s t).tcb.stack_alloc_ptr = some p)
    (ha1 : p ≤ a) (ha2 : a < p + s) :
    (up_create_stack cfg km um tcb mem s t).mem a = 0xaa := by
  obtain ⟨_, _, _, hmem⟩ := create_success_fields cfg km um tcb mem s t p hp
  rw [hmem]
  simp [hcol, memset, ha1, ha2]

/-- Witness for the amended C2: on the reuse path with coloration
enabled the byte at address 10 of the region based at 4 is 0xaa after
the call. -/
theorem coloration_fills_every_successful_create_witness :
    (up_create_stack ⟨false, true⟩ (fun _ => none) (fun _ => some 4)
      ⟨some 4, 16, 16⟩ (fun _ => 0) 16 Ttype.task).mem 10 = 0xaa :=
  coloration_fills_every_successful_create ⟨false, true⟩ (fun _ => none)
    (fun _ => some 4) ⟨some 4, 16, 16⟩ (fun _ => 0) 16 Ttype.task 4 10
    rfl (by decide) (by decide) (by decide)

/-- Claim C8 counterexample: after a successful create with requested
size 10 at base 4 the descriptor is exactly raw base 4, adjusted size
8, adjusted pointer 8 — no field retains the requested size 10 — and a
second create with the identical requested size 10 performs
allocation-domain calls, so what is compared on re-creation is the
recorded adjusted size, not a retained requested size. -/
theorem requested_size_not_retained_cex :
    (up_create_stack ⟨false, false⟩ (fun _ => none) (fun _ => some 4)
      ⟨none, 0, 0⟩ (fun _ => 0) 10 Ttype.task).tcb = ⟨some 4, 8, 8⟩ ∧
    (8 : Nat) ≠ 10 ∧
    (up_create_stack ⟨false, false⟩ (fun _ => none) (fun _ => some 4)
      (up_create_stack ⟨false, false⟩ (fun _ => none) (fun _ => some 4)
        ⟨none, 0, 0⟩ (fun _ => 0) 10 Ttype.task).tcb
      (fun _ => 0) 10 Ttype.task).events ≠ [] := by
  refine ⟨by decide, by decide, by decide⟩

/-- Claim C8 as amended: after every successful create the descriptor
retains the adjusted size and adjusted pointer computed from the raw
base and the requested size — not the requested size itself — and on a
descriptor holding a live allocation it is this retained adjusted size
that is compared with the new requested size on re-creation: the call
touches no allocation domain exactly when the recorded adjusted size
equals the new requested size. -/
theorem adjusted_size_retained_and_compared (cfg : Config)
    (km um : Nat → Option Nat) (tcb : Tcb) (mem : Nat → Nat) (s : Nat)
    (t : Ttype) :
    (∀ p, (up_create_stack cfg km um tcb mem s t).tcb.stack_alloc_ptr = some p →
      (up_create_stack cfg km um tcb mem s t).tcb.adj_stack_size
        = size_of_stack p s ∧
      (up_create_stack cfg km um tcb mem s t).tcb.adj_stack_ptr
        = top_of_stack p s) ∧
    (∀ q, tcb.stack_alloc_ptr = some q →
      ((up_create_stack cfg km um tcb mem s t).events = []
        ↔ tcb.adj_stack_size = s)) := by
  constructor
  · intro p hp
    obtain ⟨h1, h2, _, _⟩ := create_success_fields cfg km um tcb mem s t p hp
    exact ⟨h2, h1⟩
  · intro q hq
    by_cases hs : tcb.adj_stack_size = s
    · rw [create_reuse cfg km um tcb mem s t q hq hs]
      simp [hs]
    · rw [create_mismatch cfg km um tcb mem s t q hq hs]
      rcases hm : selected_malloc cfg km um s t with _ | r <;> simp [hs]

/-- Witness for the amended C8: on a descriptor with recorded adjusted
size 8, a create requesting 10 bytes performs allocation-domain calls,
matching the recorded size 8 differing from 10. -/
theorem adjusted_size_retained_and_compared_witness :
    ((up_create_stack ⟨false, false⟩ (fun _ => none) (fun _ => some 4)
      ⟨some 4, 8, 8⟩ (fun _ => 0) 10 Ttype.task).events = []
      ↔ (Tcb.mk (some 4) 8 8).adj_stack_size = 10) :=
  (adjusted_size_retained_and_compared ⟨false, false⟩ (fun _ => none)
    (fun _ => some 4) ⟨some 4, 8, 8⟩ (fun _ => 0) 10 Ttype.task).2 4 rfl
